import Mathlib

/-!
Verification development for the onboarding workflow-streaming coordination
core of the `ai_life_os_2` backend.

The Python sources are shallowly embedded:
* Python `str` used as content that is sliced is modelled as `List Char`
  (`Content`); identifiers (step names, event types, ...) remain `String`.
* Python dicts holding JSON-like values are modelled as association lists
  of `String × J`, where `J` is a small JSON value type.
* Stateful workflow code becomes pure state-passing functions that also
  return the ordered list of externally visible effects (activity calls,
  notifications) performed during the call.
* Python exceptions are modelled with `Except String`.
-/

namespace AiLife

/-- Streamed text content: a Python `str` viewed as its character list. -/
abbrev Content := List Char

/-- JSON-like values stored in dict payloads (`WorkflowSignal.data`,
workflow context, criteria data, ...). -/
inductive J where
  | str (s : String)
  | num (n : Int)
  | bool (b : Bool)
  | null
  | obj (fields : List (String × J))
  | arr (elems : List J)

/-- Lookup in a Python-dict-as-association-list (`d.get(k)`). -/
def lookupA {α : Type} (m : List (String × α)) (k : String) : Option α :=
  match m with
  | [] => none
  | (k', v) :: rest => if k' = k then some v else lookupA rest k

/-- Python dict assignment `d[k] = v`: replace in place, or append. -/
def dictInsert {α : Type} (m : List (String × α)) (k : String) (v : α) :
    List (String × α) :=
  match m with
  | [] => [(k, v)]
  | (k', v') :: rest =>
    if k' = k then (k, v) :: rest else (k', v') :: dictInsert rest k v

/-- Python `{**a, **b}` / `a.update(b)`: right-biased dict merge keeping
insertion order. -/
def dictMerge {α : Type} (a b : List (String × α)) : List (String × α) :=
  b.foldl (fun m p => dictInsert m p.1 p.2) a

/-! ## Signal protocol (src/models/workflow_signal.py and the serialized
dict form used by the Temporal workflow) -/

/-- Model of `WorkflowAction` enum from `src/models/workflow_signal.py`. -/
inductive WAction where
  | completeStep
  | stay
  | needInput
deriving DecidableEq

/-- String value of a `WorkflowAction` (its enum value). -/
def WAction.value : WAction → String
  | .completeStep => "complete_step"
  | .stay => "stay"
  | .needInput => "need_input"

/-- Model of `WorkflowSignal` pydantic model from `src/models/workflow_signal.py`. -/
structure WfSignal where
  action : WAction := .stay
  data : List (String × J) := []
  reason : Option String := none

/-- The serialized dict form of a workflow signal consumed by
`OnboardingWorkflow._process_signal` (`signal.get("action", "stay")` etc.).
An absent key is `none`. -/
structure SignalDict where
  action : Option String := none
  data : List (String × J) := []
  reason : Option String := none

/-- Serialization of an agent's optional `workflow_signal` performed by the
`run_workflow_agent` activity (`src/temporal/activities/agent.py`): a missing
signal becomes the empty dict `{}`. -/
def serializeSignal : Option WfSignal → SignalDict
  | none => {}
  | some s => { action := some s.action.value, data := s.data, reason := s.reason }

/-- Model of `AgentResult` dataclass from `src/temporal/activities/agent.py`. -/
structure AgentResult where
  content : Content
  workflowSignal : SignalDict

/-! ## Temporal onboarding workflow (src/temporal/workflows/onboarding.py) -/

/-- One entry of the `ONBOARDING_STEPS` configuration dict. -/
structure StepConfig where
  agent : String
  next : Option String
  isRequired : Bool
deriving DecidableEq

/-- The `ONBOARDING_STEPS` step configuration map. -/
def ONBOARDING_STEPS : List (String × StepConfig) :=
  [ ("greeting", { agent := "greeter", next := some "discovery", isRequired := true }),
    ("discovery", { agent := "discovery", next := some "brain_dump", isRequired := true }),
    ("brain_dump", { agent := "inbox_collector", next := some "setup_complete", isRequired := true }),
    ("setup_complete", { agent := "coordinator", next := none, isRequired := false }) ]

/-- Model of `WorkflowState` dataclass of the onboarding workflow.  The only parts of
`context` the workflow reads or writes are `context["step_data"]` (a dict
from step name to the signal data stored for that step) and
`context["shared"]`; they are modelled as separate fields. -/
structure WorkflowState where
  workflowName : String
  currentStep : String
  userId : String
  instanceId : String := ""
  conversationId : String := ""
  contextStepData : List (String × List (String × J)) := []
  contextShared : List (String × J) := []
  stepsCompleted : List String := []
  status : String := "active"

/-- Model of `UserMessage` signal payload. -/
structure UserMessage where
  content : Content
  conversationId : Option String := none
  requestId : Option String := none
deriving DecidableEq

/-- Model of `StreamingResult` from `src/temporal/workflows/mixins/streaming.py`. -/
structure StreamingResult where
  requestId : String
  content : Content := []
  agentName : String := ""
  error : Option String := none
deriving DecidableEq

/-- Model of `StreamingResult.is_error`. -/
def StreamingResult.isErr (r : StreamingResult) : Bool :=
  r.error.isSome

/-- Externally visible effects of the workflow: activity executions and
notifications, in program order. -/
inductive Act where
  | createWorkflowInstance
  | getOrCreateConversation
  | notifyUser (eventType : String)
  | saveMessage (role : String) (content : Content)
  | searchMemories (query : Content) (limit : Nat)
  | getUserCollections
  | startStreaming (requestId : String)
  | runWorkflowAgent (agentName : String)
  | addMemory (userContent : Content) (assistantContent : Content)
  | updateWorkflowStep (newStep : String)
  | completeWorkflowDB
deriving DecidableEq

/-- Results delivered by the environment (activity return values and the
streaming-completion signal) to the deterministic workflow code. -/
structure TEnv where
  instanceId : String
  conversationId : String
  memories : List String
  collections : List J
  agentResult : String → Content → AgentResult
  streamingResult : String → StreamingResult
  addMemoryResult : List (List (String × J))

/-- Model of `OnboardingWorkflow._transition_step`: returns the updated state and the
effects performed. -/
def transitionStep (s : WorkflowState) (cfg : StepConfig) :
    WorkflowState × List Act :=
  let oldStep := s.currentStep
  match cfg.next with
  | none =>
    ({ s with stepsCompleted := s.stepsCompleted ++ [oldStep], status := "completed" }, [])
  | some nextStep =>
    let s' := { s with stepsCompleted := s.stepsCompleted ++ [oldStep],
                       currentStep := nextStep }
    let newCfg := lookupA ONBOARDING_STEPS nextStep
    let agentEvents :=
      match newCfg with
      | some c => if c.agent ≠ "" then [Act.notifyUser "agent.changed"] else []
      | none => []
    (s', [Act.updateWorkflowStep nextStep, Act.notifyUser "workflow.step_changed"]
           ++ agentEvents)

/-- Model of `OnboardingWorkflow._process_signal`. -/
def processSignal (s : WorkflowState) (signal : SignalDict) (cfg : StepConfig) :
    WorkflowState × List Act :=
  let action := signal.action.getD "stay"
  let s₁ :=
    match signal.data with
    | [] => s
    | _ => { s with contextStepData := dictInsert s.contextStepData s.currentStep signal.data }
  if action = "complete_step" then transitionStep s₁ cfg
  else (s₁, [])

/-- Model of `OnboardingWorkflow._process_with_streaming`: the events performed and
the `AgentResult` handed back to `_process_message`. -/
def processWithStreaming (env : TEnv) (msg : UserMessage) (cfg : StepConfig)
    (requestId : String) : AgentResult × List Act :=
  let streamingResult := env.streamingResult requestId
  ({ content := streamingResult.content,
     workflowSignal := { action := some "stay", data := [], reason := some "" } },
   [Act.startStreaming requestId])

/-- Model of `OnboardingWorkflow._process_without_streaming`. -/
def processWithoutStreaming (env : TEnv) (msg : UserMessage) (cfg : StepConfig) :
    AgentResult × List Act :=
  (env.agentResult cfg.agent msg.content,
   [Act.notifyUser "thinking", Act.runWorkflowAgent cfg.agent,
    Act.notifyUser "message.new"])

/-- The dispatch in `_process_message`: the streaming path when the message
carries a `request_id`, the synchronous path otherwise. -/
def branchOf (env : TEnv) (msg : UserMessage) (cfg : StepConfig) :
    AgentResult × List Act :=
  match msg.requestId with
  | some rid => processWithStreaming env msg cfg rid
  | none => processWithoutStreaming env msg cfg

/-- Model of `OnboardingWorkflow._process_message`. -/
def processMessage (env : TEnv) (s : WorkflowState) (msg : UserMessage) :
    WorkflowState × List Act :=
  match lookupA ONBOARDING_STEPS s.currentStep with
  | none => (s, [])
  | some cfg =>
    let preEvents := [Act.saveMessage "user" msg.content,
                      Act.searchMemories msg.content 5,
                      Act.getUserCollections]
    let branch := branchOf env msg cfg
    let postEvents := [Act.saveMessage "assistant" branch.1.content,
                       Act.addMemory msg.content branch.1.content]
    ((processSignal s branch.1.workflowSignal cfg).1,
     preEvents ++ branch.2 ++ postEvents ++ (processSignal s branch.1.workflowSignal cfg).2)

/-- Main loop body of `OnboardingWorkflow.run`: drain the given queue of
pending messages in order while the workflow is active, stopping when the
state becomes completed. -/
def runLoop (env : TEnv) (s : WorkflowState) :
    List UserMessage → WorkflowState × List Act
  | [] => (s, [])
  | m :: rest =>
    if s.status = "active" then
      let r := processMessage env s m
      if r.1.status = "completed" then r
      else
        let r' := runLoop env r.1 rest
        (r'.1, r.2 ++ r'.2)
    else (s, [])

/-- Initial `WorkflowState` built by `OnboardingWorkflow.run`. -/
def initState (env : TEnv) (userId : String) : WorkflowState :=
  { workflowName := "onboarding", currentStep := "greeting", userId := userId,
    instanceId := env.instanceId, conversationId := env.conversationId }

/-- Model of `OnboardingWorkflow.run` on a finite queue of user messages: the
initialization effects, then the main loop, then (only when the loop exited
because the workflow completed) the completion effects. -/
def runWorkflow (env : TEnv) (userId : String) (msgs : List UserMessage) :
    WorkflowState × List Act :=
  let initEvents := [Act.createWorkflowInstance, Act.getOrCreateConversation,
                     Act.notifyUser "workflow.started"]
  let r := runLoop env (initState env userId) msgs
  (r.1,
   if r.1.status = "completed" then
     initEvents ++ r.2 ++ [Act.completeWorkflowDB, Act.notifyUser "workflow.completed"]
   else
     initEvents ++ r.2)

/-! ## Completion criteria registry (src/services/completion_criteria.py) -/

/-- Model of `CriteriaResult` dataclass. -/
structure CriteriaResult where
  satisfied : Bool
  missing : List String := []
  data : List (String × J) := []

/-- Environment the checkers act against: the memory collaborator
(`MemoryService.is_available` and `MemoryService.search`, which may raise)
and the record store (`pocketbase.list_records` item count for a collection
and filter, which may raise). -/
structure ChkEnv where
  memAvailable : Bool
  memSearch : String → Nat → Except String (List String)
  pbItemCount : String → String → Except String Nat

/-- A registered checker: `check(workflow_instance_id, user_id, signal_data,
params)`.  A raised exception is an `Except.error` carrying its message.
The instance and user ids only select external state, which `ChkEnv`
already fixes, so they are not separate arguments. -/
def Checker : Type :=
  ChkEnv → List (String × J) → J → Except String CriteriaResult

/-- Model of `params.get(key, default)` read as a count.  All shipped configurations
store numbers here; the embedding assumes that typing. -/
def paramNat (params : J) (key : String) (default : Nat) : Nat :=
  match params with
  | J.obj fields =>
    match lookupA fields key with
    | some (J.num n) => n.toNat
    | _ => default
  | _ => default

/-- Model of `params.get(key)` read as an optional string. -/
def paramStr (params : J) (key : String) : Option String :=
  match params with
  | J.obj fields =>
    match lookupA fields key with
    | some (J.str s) => some s
    | _ => none
  | _ => none

/-- Python `opt or default` on an optional string (`None` and `""` are both
falsy). -/
def orDefault (opt : Option String) (default : String) : String :=
  match opt with
  | some s => if s = "" then default else s
  | none => default

/-- The generic discovery query used when no `category` param is given. -/
def defaultDiscoveryQuery : String := "user preferences priorities goals"

/-- Model of `AgentSignalChecker.check`: always satisfied. -/
def agentSignalCheck : Checker := fun _ _ _ => .ok { satisfied := true }

/-- Model of `AutoCompleteChecker.check`: always satisfied. -/
def autoCompleteCheck : Checker := fun _ _ _ => .ok { satisfied := true }

/-- Model of `AgentSignalWithMemoryChecker.check`, instrumented: besides the
`CriteriaResult` it returns the list of `(query, limit)` searches issued to
the memory collaborator. -/
def agentSignalMemoryCheck (env : ChkEnv) (params : J) :
    CriteriaResult × List (String × Nat) :=
  let minFacts := paramNat params "min_facts" 1
  let category := paramStr params "category"
  if !env.memAvailable then
    ({ satisfied := true, data := [("memory_check_skipped", J.bool true)] }, [])
  else
    let query := orDefault category defaultDiscoveryQuery
    match env.memSearch query (minFacts + 5) with
    | .ok facts =>
      if minFacts ≤ facts.length then
        ({ satisfied := true, data := [("facts_count", J.num facts.length)] },
         [(query, minFacts + 5)])
      else
        ({ satisfied := false,
           missing := ["Need at least " ++ toString minFacts ++ " facts about "
                        ++ orDefault category "user" ++ ", have "
                        ++ toString facts.length],
           data := [("facts_count", J.num facts.length)] },
         [(query, minFacts + 5)])
    | .error e =>
      ({ satisfied := true, data := [("memory_check_error", J.str e)] },
       [(query, minFacts + 5)])

/-- Model of `AgentSignalWithWidgetChecker.check`. -/
def agentSignalWidgetCheck : Checker := fun env _ params =>
  let minItems := paramNat params "min_items" 1
  let collection := (paramStr params "collection").getD "inbox_items"
  match env.pbItemCount collection "user_id filter" with
  | .ok count =>
    if minItems ≤ count then
      .ok { satisfied := true, data := [("items_count", J.num count)] }
    else
      .ok { satisfied := false,
            missing := ["Need at least " ++ toString minItems ++ " items in "
                         ++ collection ++ ", have " ++ toString count],
            data := [("items_count", J.num count)] }
  | .error e =>
    .ok { satisfied := true, data := [("widget_check_error", J.str e)] }

/-- The built-in `_checkers` registry as populated at module load. -/
def builtinCheckers : List (String × Checker) :=
  [ ("agent_signal", agentSignalCheck),
    ("agent_signal_memory", fun env _ params => .ok (agentSignalMemoryCheck env params).1),
    ("agent_signal_widget", agentSignalWidgetCheck),
    ("auto", autoCompleteCheck) ]

/-- Model of `_checkers.get(name)` for a registry extended by `register_checker`
calls (`extra`, later registrations shadowing the built-ins). -/
def registryLookup (extra : List (String × Checker)) (name : String) :
    Option Checker :=
  match lookupA extra name with
  | some c => some c
  | none => lookupA builtinCheckers name

/-- Model of `criteria_config.get("type", "agent_signal")`. -/
def cfgType (cfg : J) : String :=
  match cfg with
  | J.obj fields =>
    match lookupA fields "type" with
    | some (J.str t) => t
    | _ => "agent_signal"
  | _ => "agent_signal"

/-- Model of `criteria_config.get("params", {})`. -/
def cfgParams (cfg : J) : J :=
  match cfg with
  | J.obj fields => (lookupA fields "params").getD (J.obj [])
  | _ => J.obj []

/-- Model of `check_completion_criteria`: total — an unknown type falls back to
`agent_signal` and a checker exception becomes an unsatisfied result. -/
def checkCompletionCriteria (extra : List (String × Checker)) (env : ChkEnv)
    (cfg : J) (signalData : List (String × J)) : CriteriaResult :=
  let criteriaType := cfgType cfg
  let checker :=
    match registryLookup extra criteriaType with
    | some c => c
    | none => (registryLookup extra "agent_signal").getD agentSignalCheck
  match checker env signalData (cfgParams cfg) with
  | .ok r => r
  | .error e => { satisfied := false, missing := ["Criteria check failed: " ++ e] }

/-! ## Service-layer workflow engine (src/services/workflow.py) -/

/-- One step of a registered workflow configuration. -/
structure WfStep where
  name : String
  agent : Option String := none
  isRequired : Bool := true
  completionCriteria : Option J := none
  nextStep : Option String := none

/-- A registered workflow configuration. -/
structure WfConfig where
  name : String
  initialStep : Option String := none
  steps : List WfStep

/-- Model of `WorkflowInstance` dataclass (the persisted record). -/
structure WorkflowInstance where
  id : String
  userId : String
  workflowName : String
  currentStep : String
  status : String
  context : List (String × J) := []
  startedAt : Option String := none
  completedAt : Option String := none

/-- The first configured step with the given name (`for step in steps: if
step["name"] == ...`). -/
def findStep (cfg : WfConfig) (name : String) : Option WfStep :=
  cfg.steps.find? (fun st => st.name = name)

/-- Python truthiness of an optional `next_step` string. -/
def nsTruthy (o : Option String) : Bool :=
  match o with
  | some s => s ≠ ""
  | none => false

/-- Model of `WorkflowService.can_transition` on an already-fetched instance. -/
def canTransition (cfg : WfConfig) (inst : WorkflowInstance) (toStep : String) :
    Bool :=
  if inst.status ≠ "active" then false
  else
    match findStep cfg inst.currentStep with
    | some st => st.nextStep = some toStep
    | none => false

/-- Model of `WorkflowService.transition` on an already-fetched instance, with the
persistence write assumed to succeed; returns the updated record and the
boolean the method returns. -/
def svcTransition (cfg : WfConfig) (now : String) (inst : WorkflowInstance)
    (toStep : String) (data : Option (List (String × J))) :
    WorkflowInstance × Bool :=
  if !canTransition cfg inst toStep then (inst, false)
  else
    let newContext :=
      match data with
      | some d => dictMerge inst.context d
      | none => inst.context
    let isFinal :=
      !(cfg.steps.any (fun st => st.name = toStep && nsTruthy st.nextStep))
    ({ inst with currentStep := toStep, context := newContext,
                 status := if isFinal then "completed" else inst.status,
                 completedAt := if isFinal then some now else inst.completedAt },
     true)

/-- Model of `WorkflowService.update_context`. -/
def updateContext (inst : WorkflowInstance) (data : List (String × J)) :
    WorkflowInstance :=
  { inst with context := dictMerge inst.context data }

/-- Model of `WorkflowService.complete_workflow`. -/
def svcCompleteWorkflow (now : String) (inst : WorkflowInstance) :
    WorkflowInstance :=
  { inst with status := "completed", completedAt := some now }

/-- Model of `WorkflowService.process_agent_signal` on an already-fetched instance.
Returns the updated persisted record together with the method's
`(transitioned, new_step, criteria_result)` triple; an `Except.error`
models an uncaught exception (a step configured without
`completion_criteria` makes `check_completion_criteria` dereference
`None`). -/
def processAgentSignal (extra : List (String × Checker)) (env : ChkEnv)
    (cfg : WfConfig) (now : String) (inst : WorkflowInstance)
    (signal : WfSignal) :
    Except String (WorkflowInstance × (Bool × Option String × Option CriteriaResult)) :=
  if signal.action ≠ WAction.completeStep then
    match signal.data with
    | [] => .ok (inst, (false, none, none))
    | _ => .ok (updateContext inst signal.data, (false, none, none))
  else
    match findStep cfg inst.currentStep with
    | none => .ok (inst, (false, none, none))
    | some st =>
      match st.completionCriteria with
      | none => .error "AttributeError: NoneType object has no attribute get"
      | some criteriaConfig =>
        let criteriaResult :=
          checkCompletionCriteria extra env criteriaConfig signal.data
        if !criteriaResult.satisfied then
          .ok (inst, (false, none, some criteriaResult))
        else if !nsTruthy st.nextStep then
          .ok (svcCompleteWorkflow now inst, (true, none, some criteriaResult))
        else
          let nextStep := st.nextStep.getD ""
          let stepData :=
            match lookupA inst.context "step_data" with
            | some (J.obj m) => m
            | _ => []
          let entry := J.obj (dictMerge
            (dictMerge [("completed_at", J.str now)] criteriaResult.data)
            signal.data)
          let stepData' := dictInsert stepData inst.currentStep entry
          let contextUpdate := [("step_data", J.obj stepData')]
          let (inst', success) :=
            svcTransition cfg now inst nextStep (some contextUpdate)
          if success then
            .ok (inst', (true, some nextStep, some criteriaResult))
          else
            .ok (inst', (false, none, some criteriaResult))

/-! ## Stream coordinator (src/services/streaming/) -/

/-- Model of `StreamChunk`. -/
structure StreamChunk where
  delta : Content
  accumulated : Content
deriving DecidableEq

/-- Model of `StreamResult` (final result of a completed stream). -/
structure StreamResultS where
  messageId : String
  content : Content
  agentName : String
deriving DecidableEq

/-- Model of `StreamState` (mutable per-request state of the executor). -/
structure StreamState where
  requestId : String
  accumulatedContent : Content := []
  isComplete : Bool := false
  error : Option String := none
deriving DecidableEq

/-- Model of `StreamState.update_from_accumulated`: compute the delta against the
previous accumulated content (`delta = new[len(old):]`), store the new
accumulated content, and return the chunk. -/
def StreamState.updateFromAccumulated (s : StreamState) (newAccumulated : Content) :
    StreamState × StreamChunk :=
  let delta := newAccumulated.drop s.accumulatedContent.length
  ({ s with accumulatedContent := newAccumulated },
   { delta := delta, accumulated := newAccumulated })

/-- Feed a sequence of accumulated-text snapshots through
`update_from_accumulated`, collecting the emitted chunks. -/
def feedAccumulated (s : StreamState) : List Content → StreamState × List StreamChunk
  | [] => (s, [])
  | a :: rest =>
    let (s', chunk) := s.updateFromAccumulated a
    let (s'', chunks) := feedAccumulated s' rest
    (s'', chunk :: chunks)

/-- Model of `StreamRequest`. -/
structure StreamRequest where
  requestId : String
  userId : String
  conversationId : String
  workflowId : String
  agentName : String
  userMessage : Content
  context : List (String × J) := []

/-- Events emitted by the streaming pipeline: WebSocket events sent to the
user and signals delivered to the durable engine. -/
inductive SEvent where
  | wsStart (requestId : String)
  | wsChunk (requestId : String) (delta accumulated : Content)
  | wsEnd (requestId : String) (messageId : String) (content : Content)
  | wsError (requestId : String) (error : String) (recoverable : Bool)
  | engineResult (workflowId requestId : String) (content : Content) (agentName : String)
  | engineError (workflowId requestId : String) (error : String)
deriving DecidableEq

/-- Whether an event is a signal to the durable engine
(`signal_streaming_complete`). -/
def SEvent.isEngineSignal : SEvent → Bool
  | .engineResult _ _ _ _ => true
  | .engineError _ _ _ => true
  | _ => false

/-- Model of `StreamNotifier.notify_complete`: `stream.end` to the client, then the
final result signalled to the durable engine. -/
def notifyCompleteEvents (req : StreamRequest) (result : StreamResultS) :
    List SEvent :=
  [SEvent.wsEnd req.requestId result.messageId result.content,
   SEvent.engineResult req.workflowId req.requestId result.content result.agentName]

/-- Model of `StreamNotifier.notify_error`: `stream.error` to the client, then the
error string signalled to the durable engine. -/
def notifyErrorEvents (req : StreamRequest) (error : String) (recoverable : Bool) :
    List SEvent :=
  [SEvent.wsError req.requestId error recoverable,
   SEvent.engineError req.workflowId req.requestId error]

/-- How one background streaming task ends: the executor chunk iterator is
exhausted normally, the task is cancelled (`asyncio.CancelledError`), or
some other exception with the given message interrupts the pipeline.  The
`started` flag records whether the interruption happened after
`notify_start`. -/
inductive StreamOutcome where
  | completed (chunks : List StreamChunk)
  | cancelled (started : Bool) (chunks : List StreamChunk)
  | failed (started : Bool) (chunks : List StreamChunk) (msg : String)
deriving DecidableEq

/-- The executor state's accumulated content after emitting `chunks`
(what `get_result` packages as the final content). -/
def resultContent (chunks : List StreamChunk) : Content :=
  match chunks.getLast? with
  | some c => c.accumulated
  | none => []

/-- Model of `StreamingOrchestrator._run_stream`: the full ordered event trace of one
background streaming task, for each way the task can end.  `messageId` is
the uuid `get_result` generates on the normal path. -/
def runStream (req : StreamRequest) (messageId : String) :
    StreamOutcome → List SEvent
  | .completed chunks =>
    [SEvent.wsStart req.requestId]
      ++ chunks.map (fun c => SEvent.wsChunk req.requestId c.delta c.accumulated)
      ++ notifyCompleteEvents req
           { messageId := messageId, content := resultContent chunks,
             agentName := req.agentName }
  | .cancelled started chunks =>
    (if started then [SEvent.wsStart req.requestId] else [])
      ++ chunks.map (fun c => SEvent.wsChunk req.requestId c.delta c.accumulated)
      ++ notifyErrorEvents req "Stream cancelled" true
  | .failed started chunks msg =>
    (if started then [SEvent.wsStart req.requestId] else [])
      ++ chunks.map (fun c => SEvent.wsChunk req.requestId c.delta c.accumulated)
      ++ notifyErrorEvents req msg false

/-- Whether an effect is the durable step-transition write
(`update_workflow_step`). -/
def Act.isUpdateStep : Act → Bool
  | .updateWorkflowStep _ => true
  | _ => false

/-- Whether an effect is the memory-add activity. -/
def Act.isAddMem : Act → Bool
  | .addMemory _ _ => true
  | _ => false

/-- Whether an effect is the `workflow.completed` notification. -/
def isCompletedNotify : Act → Bool
  | .notifyUser t => t == "workflow.completed"
  | _ => false

/-- States of the durable onboarding workflow reachable from initialization
by processing any sequence of user messages under any environments. -/
inductive Reachable : WorkflowState → Prop where
  | init : ∀ (env : TEnv) (userId : String), Reachable (initState env userId)
  | step : ∀ (env : TEnv) (s : WorkflowState) (m : UserMessage),
      Reachable s → Reachable (processMessage env s m).1

/-- A concrete environment whose agent always signals `complete_step` with
no data, used to exercise the workflow on concrete runs. -/
def demoEnv : TEnv :=
  { instanceId := "i1", conversationId := "c1", memories := [], collections := [],
    agentResult := fun _ _ =>
      { content := ['o', 'k'], workflowSignal := { action := some "complete_step" } },
    streamingResult := fun rid => { requestId := rid },
    addMemoryResult := [] }

/-- A concrete workflow state at the greeting step. -/
def demoState : WorkflowState :=
  { workflowName := "onboarding", currentStep := "greeting", userId := "u1" }

/-- A concrete non-streaming user message. -/
def demoMsg : UserMessage := { content := ['g', 'o'] }

/-! ## Theorems -/

/-- Helper: a prefix followed by dropping its length reconstitutes the
longer list. -/
lemma prefix_append_drop {α : Type} {a b : List α} (h : a <+: b) :
    a ++ b.drop a.length = b := by
  obtain ⟨t, ht⟩ := h
  subst ht
  simp

/-- Helper: feeding prefix-growing snapshots concatenates the deltas back to
the final accumulated content. -/
lemma feedAccumulated_flatten (snaps : List Content) :
    ∀ s : StreamState, List.Chain' (· <+: ·) (s.accumulatedContent :: snaps) →
      s.accumulatedContent ++ ((feedAccumulated s snaps).2.map (fun c => c.delta)).flatten
        = (feedAccumulated s snaps).1.accumulatedContent := by
  induction snaps with
  | nil => intro s _; simp [feedAccumulated]
  | cons a rest ih =>
    intro s h
    rw [List.chain'_cons] at h
    obtain ⟨h₁, h₂⟩ := h
    have hs' : (s.updateFromAccumulated a).1.accumulatedContent = a := rfl
    have := ih (s.updateFromAccumulated a).1 (by rw [hs']; exact h₂)
    simp only [feedAccumulated, StreamState.updateFromAccumulated] at *
    rw [List.map_cons, List.flatten_cons, ← List.append_assoc]
    rw [prefix_append_drop h₁]
    exact this

/-- Claim C6: `StreamState.update_from_accumulated` computes each delta as
the new snapshot with the previous accumulated content's length stripped
from the front, and over any prefix-growing sequence of snapshots fed from
an empty accumulated state the concatenation of the emitted deltas equals
the final accumulated content. -/
theorem c6_delta_prefix_concat :
    (∀ (s : StreamState) (newAccumulated : Content),
       (s.updateFromAccumulated newAccumulated).2.delta
         = newAccumulated.drop s.accumulatedContent.length) ∧
    ∀ (rid : String) (snaps : List Content),
      List.Chain' (· <+: ·) ([] :: snaps) →
      ((feedAccumulated { requestId := rid } snaps).2.map (fun c => c.delta)).flatten
        = (feedAccumulated { requestId := rid } snaps).1.accumulatedContent := by
  refine ⟨fun s newAccumulated => rfl, fun rid snaps h => ?_⟩
  have := feedAccumulated_flatten snaps { requestId := rid } h
  simpa using this

/-- Witness for C6 at the concrete snapshot sequence "h", "he", "hel". -/
theorem c6_delta_prefix_concat_witness :
    ((feedAccumulated { requestId := "r1" } [['h'], ['h', 'e'], ['h', 'e', 'l']]).2.map
        (fun c => c.delta)).flatten
      = (feedAccumulated { requestId := "r1" } [['h'], ['h', 'e'], ['h', 'e', 'l']]).1.accumulatedContent :=
  c6_delta_prefix_concat.2 "r1" [['h'], ['h', 'e'], ['h', 'e', 'l']]
    (by refine List.chain'_cons.2 ⟨⟨['h'], rfl⟩, ?_⟩
        refine List.chain'_cons.2 ⟨⟨['e'], rfl⟩, ?_⟩
        refine List.chain'_cons.2 ⟨⟨['l'], rfl⟩, ?_⟩
        exact List.chain'_singleton _)

/-- Claim C7: the `agent_signal_memory` checker queries the memory
collaborator exactly once with the configured category (or the generic
discovery query) and limit `min_facts + 5`; on a successful query it is
satisfied iff at least `min_facts` facts come back; on unavailability or a
query error it degrades to satisfied while recording the degradation in
`data`; concretely with `min_facts = 3` it rejects 2 facts and accepts 3. -/
theorem c7_memory_criteria_check :
    (∀ (env : ChkEnv) (params : J), env.memAvailable = true →
       (agentSignalMemoryCheck env params).2
         = [(orDefault (paramStr params "category") defaultDiscoveryQuery,
             paramNat params "min_facts" 1 + 5)]) ∧
    (∀ (env : ChkEnv) (params : J) (facts : List String),
       env.memAvailable = true →
       env.memSearch (orDefault (paramStr params "category") defaultDiscoveryQuery)
           (paramNat params "min_facts" 1 + 5) = .ok facts →
       ((agentSignalMemoryCheck env params).1.satisfied = true ↔
          paramNat params "min_facts" 1 ≤ facts.length)) ∧
    (∀ (env : ChkEnv) (params : J), env.memAvailable = false →
       (agentSignalMemoryCheck env params).1
         = { satisfied := true, data := [("memory_check_skipped", J.bool true)] } ∧
       (agentSignalMemoryCheck env params).2 = []) ∧
    (∀ (env : ChkEnv) (params : J) (e : String),
       env.memAvailable = true →
       env.memSearch (orDefault (paramStr params "category") defaultDiscoveryQuery)
           (paramNat params "min_facts" 1 + 5) = .error e →
       (agentSignalMemoryCheck env params).1
         = { satisfied := true, data := [("memory_check_error", J.str e)] }) ∧
    ((agentSignalMemoryCheck
         { memAvailable := true, memSearch := fun _ _ => .ok ["f1", "f2"],
           pbItemCount := fun _ _ => .ok 0 }
         (J.obj [("min_facts", J.num 3)])).1.satisfied = false ∧
     (agentSignalMemoryCheck
         { memAvailable := true, memSearch := fun _ _ => .ok ["f1", "f2", "f3"],
           pbItemCount := fun _ _ => .ok 0 }
         (J.obj [("min_facts", J.num 3)])).1.satisfied = true) := by
  refine ⟨?_, ?_, ?_, ?_, by constructor <;> rfl⟩
  · intro env params h
    simp only [agentSignalMemoryCheck, h, Bool.not_true, Bool.false_eq_true, if_false]
    rcases hq : env.memSearch (orDefault (paramStr params "category") defaultDiscoveryQuery)
        (paramNat params "min_facts" 1 + 5) with e | facts
    · simp [hq]
    · simp only [hq]
      split <;> rfl
  · intro env params facts h hq
    simp only [agentSignalMemoryCheck, h, Bool.not_true, Bool.false_eq_true, if_false, hq]
    by_cases hc : paramNat params "min_facts" 1 ≤ facts.length
    · simp [hc]
    · simp [hc]
  · intro env params h
    constructor <;> simp [agentSignalMemoryCheck, h]
  · intro env params e h hq
    simp [agentSignalMemoryCheck, h, hq]

/-- Witness for C7: with the memory collaborator unavailable the check
degrades to satisfied and performs no search. -/
theorem c7_memory_criteria_check_witness :
    (agentSignalMemoryCheck
        { memAvailable := false, memSearch := fun _ _ => .ok [],
          pbItemCount := fun _ _ => .ok 0 }
        (J.obj [("min_facts", J.num 3)])).1
      = { satisfied := true, data := [("memory_check_skipped", J.bool true)] } ∧
    (agentSignalMemoryCheck
        { memAvailable := false, memSearch := fun _ _ => .ok [],
          pbItemCount := fun _ _ => .ok 0 }
        (J.obj [("min_facts", J.num 3)])).2 = [] :=
  c7_memory_criteria_check.2.2.1
    { memAvailable := false, memSearch := fun _ _ => .ok [],
      pbItemCount := fun _ _ => .ok 0 }
    (J.obj [("min_facts", J.num 3)]) rfl

/-- Claim C8: `check_completion_criteria` is total; an unregistered criteria
type falls back to the `agent_signal` checker and therefore yields
satisfied, and a checker that raises yields an unsatisfied result whose
`missing` list carries the exception message. -/
theorem c8_criteria_check_total :
    ∀ (extra : List (String × Checker)) (env : ChkEnv) (cfg : J)
      (sd : List (String × J)),
      (registryLookup extra (cfgType cfg) = none →
        lookupA extra "agent_signal" = none →
        checkCompletionCriteria extra env cfg sd = { satisfied := true }) ∧
      (∀ (c : Checker) (e : String),
        registryLookup extra (cfgType cfg) = some c →
        c env sd (cfgParams cfg) = .error e →
        checkCompletionCriteria extra env cfg sd
          = { satisfied := false, missing := ["Criteria check failed: " ++ e] }) ∧
      (∀ (c : Checker) (r : CriteriaResult),
        registryLookup extra (cfgType cfg) = some c →
        c env sd (cfgParams cfg) = .ok r →
        checkCompletionCriteria extra env cfg sd = r) := by
  intro extra env cfg sd
  refine ⟨?_, ?_, ?_⟩
  · intro hnone hag
    have hfb : registryLookup extra "agent_signal" = some agentSignalCheck := by
      simp [registryLookup, hag, builtinCheckers, lookupA]
    simp [checkCompletionCriteria, hnone, hfb, agentSignalCheck]
  · intro c e hc herr
    simp [checkCompletionCriteria, hc, herr]
  · intro c r hc hok
    simp [checkCompletionCriteria, hc, hok]

/-- Claim C1 (divergence evidence): the durable onboarding workflow's
`_process_signal` commits a `complete_step` transition unconditionally — it
consults no completion criteria (its event trace contains no criteria
activity, and it takes no criteria input at all) — whereas the service
engine `process_agent_signal` evaluating the very same registry blocks the
transition when the configured `agent_signal_memory` criteria are
unsatisfied. -/
theorem c1_complete_step_bypasses_criteria :
    processSignal
        { workflowName := "onboarding", currentStep := "greeting", userId := "u1" }
        { action := some "complete_step" }
        { agent := "greeter", next := some "discovery", isRequired := true }
      = ({ workflowName := "onboarding", currentStep := "discovery", userId := "u1",
           stepsCompleted := ["greeting"] },
         [Act.updateWorkflowStep "discovery", Act.notifyUser "workflow.step_changed",
          Act.notifyUser "agent.changed"]) ∧
    processAgentSignal []
        { memAvailable := true, memSearch := fun _ _ => .ok [],
          pbItemCount := fun _ _ => .ok 0 }
        { name := "onboarding",
          steps := [{ name := "greeting", agent := some "greeter",
                      completionCriteria := some (J.obj
                        [("type", J.str "agent_signal_memory"),
                         ("params", J.obj [("min_facts", J.num 3)])]),
                      nextStep := some "discovery" },
                    { name := "discovery", agent := some "discovery" }] }
        "t0"
        { id := "wf1", userId := "u1", workflowName := "onboarding",
          currentStep := "greeting", status := "active" }
        { action := .completeStep }
      = .ok ({ id := "wf1", userId := "u1", workflowName := "onboarding",
               currentStep := "greeting", status := "active" },
             (false, none,
              some { satisfied := false,
                     missing := ["Need at least 3 facts about user, have 0"],
                     data := [("facts_count", J.num 0)] })) :=
  ⟨rfl, rfl⟩

/-- Claim C2: on the streaming path the signal applied after the stream
completes is always `{action: "stay", data: {}, reason: ""}` — whatever the
streamed content and whether or not the stream errored — so a message
carrying a `request_id` never changes the current step, the completed-step
list, or the status. -/
theorem c2_streaming_signal_always_stay :
    ∀ (env : TEnv) (s : WorkflowState) (m : UserMessage) (cfg : StepConfig)
      (rid : String), m.requestId = some rid →
      (processWithStreaming env m cfg rid).1.workflowSignal
          = { action := some "stay", data := [], reason := some "" } ∧
      (processMessage env s m).1.currentStep = s.currentStep ∧
      (processMessage env s m).1.stepsCompleted = s.stepsCompleted ∧
      (processMessage env s m).1.status = s.status := by
  intro env s m cfg rid hrid
  refine ⟨rfl, ?_⟩
  unfold processMessage
  rcases hstep : lookupA ONBOARDING_STEPS s.currentStep with _ | cfg'
  · simp
  · simp only [branchOf, hrid, processWithStreaming, processSignal, transitionStep]
    simp

/-- Witness for C2: a concrete streaming message, with the stream reporting
an error, leaves the state unchanged. -/
theorem c2_streaming_signal_always_stay_witness :
    (processWithStreaming
        { instanceId := "i1", conversationId := "c1", memories := [],
          collections := [],
          agentResult := fun _ _ =>
            { content := ['o', 'k'],
              workflowSignal := { action := some "complete_step" } },
          streamingResult := fun rid =>
            { requestId := rid, content := [], error := some "LLM failure" },
          addMemoryResult := [] }
        { content := ['h', 'i'], requestId := some "r9" }
        { agent := "greeter", next := some "discovery", isRequired := true }
        "r9").1.workflowSignal
      = { action := some "stay", data := [], reason := some "" } ∧
    (processMessage
        { instanceId := "i1", conversationId := "c1", memories := [],
          collections := [],
          agentResult := fun _ _ =>
            { content := ['o', 'k'],
              workflowSignal := { action := some "complete_step" } },
          streamingResult := fun rid =>
            { requestId := rid, content := [], error := some "LLM failure" },
          addMemoryResult := [] }
        { workflowName := "onboarding", currentStep := "greeting", userId := "u1" }
        { content := ['h', 'i'], requestId := some "r9" }).1.currentStep
      = ({ workflowName := "onboarding", currentStep := "greeting",
           userId := "u1" } : WorkflowState).currentStep :=
  ⟨(c2_streaming_signal_always_stay
      { instanceId := "i1", conversationId := "c1", memories := [],
        collections := [],
        agentResult := fun _ _ =>
          { content := ['o', 'k'],
            workflowSignal := { action := some "complete_step" } },
        streamingResult := fun rid =>
          { requestId := rid, content := [], error := some "LLM failure" },
        addMemoryResult := [] }
      { workflowName := "onboarding", currentStep := "greeting", userId := "u1" }
      { content := ['h', 'i'], requestId := some "r9" }
      { agent := "greeter", next := some "discovery", isRequired := true }
      "r9" rfl).1,
   (c2_streaming_signal_always_stay
      { instanceId := "i1", conversationId := "c1", memories := [],
        collections := [],
        agentResult := fun _ _ =>
          { content := ['o', 'k'],
            workflowSignal := { action := some "complete_step" } },
        streamingResult := fun rid =>
          { requestId := rid, content := [], error := some "LLM failure" },
        addMemoryResult := [] }
      { workflowName := "onboarding", currentStep := "greeting", userId := "u1" }
      { content := ['h', 'i'], requestId := some "r9" }
      { agent := "greeter", next := some "discovery", isRequired := true }
      "r9" rfl).2.1⟩

/-- Claim C9: a signal whose action resolves to `stay` — including the
serialized form of an absent agent signal, which is the empty dict and
resolves to `stay` with empty data — leaves the current step, the
completed-step list, and the status unchanged in the durable workflow,
touching at most the stored step data; likewise the service engine only
updates the context for a non-`complete_step` signal. -/
theorem c9_stay_leaves_state :
    (∀ (s : WorkflowState) (sig : SignalDict) (cfg : StepConfig),
       sig.action.getD "stay" = "stay" →
       (processSignal s sig cfg).1.currentStep = s.currentStep ∧
       (processSignal s sig cfg).1.stepsCompleted = s.stepsCompleted ∧
       (processSignal s sig cfg).1.status = s.status ∧
       (processSignal s sig cfg).1
         = { s with contextStepData := (processSignal s sig cfg).1.contextStepData } ∧
       (processSignal s sig cfg).2 = []) ∧
    ((serializeSignal none).action.getD "stay" = "stay" ∧
     (serializeSignal none).data = []) ∧
    (∀ (extra : List (String × Checker)) (env : ChkEnv) (cfg : WfConfig)
       (now : String) (inst : WorkflowInstance) (sig : WfSignal),
       sig.action ≠ WAction.completeStep →
       ∃ ctx', processAgentSignal extra env cfg now inst sig
         = .ok ({ inst with context := ctx' }, (false, none, none))) := by
  refine ⟨?_, ⟨rfl, rfl⟩, ?_⟩
  · intro s sig cfg hstay
    have hact : ¬(sig.action.getD "stay" = "complete_step") := by
      rw [hstay]; decide
    unfold processSignal
    rcases hd : sig.data with _ | ⟨p, rest⟩
    · simp [hact]
    · simp only [hd]
      simp [hact]
  · intro extra env cfg now inst sig hact
    unfold processAgentSignal
    rw [if_pos hact]
    rcases hd : sig.data with _ | ⟨p, rest⟩
    · exact ⟨inst.context, rfl⟩
    · refine ⟨dictMerge inst.context sig.data, ?_⟩
      rw [hd]
      simp [updateContext, hd]

/-- Witness for C9: an empty signal dict (agent returned no signal) applied
at the greeting step changes nothing. -/
theorem c9_stay_leaves_state_witness :
    (processSignal
        { workflowName := "onboarding", currentStep := "greeting", userId := "u1" }
        (serializeSignal none)
        { agent := "greeter", next := some "discovery", isRequired := true }).1.currentStep
      = "greeting" ∧
    (processSignal
        { workflowName := "onboarding", currentStep := "greeting", userId := "u1" }
        (serializeSignal none)
        { agent := "greeter", next := some "discovery", isRequired := true }).2 = [] :=
  ⟨((c9_stay_leaves_state.1
      { workflowName := "onboarding", currentStep := "greeting", userId := "u1" }
      (serializeSignal none)
      { agent := "greeter", next := some "discovery", isRequired := true }) rfl).1,
   ((c9_stay_leaves_state.1
      { workflowName := "onboarding", currentStep := "greeting", userId := "u1" }
      (serializeSignal none)
      { agent := "greeter", next := some "discovery", isRequired := true }) rfl).2.2.2.2⟩

/-- Witness for C8: an unknown type falls back to satisfied, and a raising
custom checker becomes an unsatisfied result carrying the message. -/
theorem c8_criteria_check_total_witness :
    checkCompletionCriteria []
        { memAvailable := true, memSearch := fun _ _ => .ok [],
          pbItemCount := fun _ _ => .ok 0 }
        (J.obj [("type", J.str "mystery_type")]) [] = { satisfied := true } ∧
    checkCompletionCriteria [("boom", fun _ _ _ => .error "boom failed")]
        { memAvailable := true, memSearch := fun _ _ => .ok [],
          pbItemCount := fun _ _ => .ok 0 }
        (J.obj [("type", J.str "boom")]) []
      = { satisfied := false, missing := ["Criteria check failed: boom failed"] } :=
  ⟨(c8_criteria_check_total [] _ _ []).1 rfl rfl,
   (c8_criteria_check_total [("boom", fun _ _ _ => .error "boom failed")] _ _ []).2.1
     (fun _ _ _ => .error "boom failed") "boom failed" rfl rfl⟩

/-- Helper: the last element of a list extended by two elements. -/
lemma getLast_append_pair {α : Type} (l : List α) (a b : α) :
    (l ++ [a, b]).getLast? = some b := by
  rw [show [a, b] = [a] ++ [b] from rfl, ← List.append_assoc]
  exact List.getLast?_concat _

/-- Helper: chunk notifications are not engine signals. -/
lemma countP_engine_chunks (rid : String) (chunks : List StreamChunk) :
    (chunks.map (fun c => SEvent.wsChunk rid c.delta c.accumulated)).countP
      SEvent.isEngineSignal = 0 := by
  rw [List.countP_eq_zero]
  intro a ha
  rcases List.mem_map.1 ha with ⟨c, _, rfl⟩
  simp [SEvent.isEngineSignal]

/-- Claim C4: every background streaming run signals the durable engine
exactly once, and the trace ends with that signal: on normal exhaustion a
`stream.end` followed by the final result signal; on cancellation a
recoverable `stream.error` plus an error signal; on any other exception a
non-recoverable `stream.error` plus an error signal — so the workflow
blocked on the completion signal is released on every path. -/
theorem c4_stream_terminal_signal_exactly_once :
    ∀ (req : StreamRequest) (mid : String) (o : StreamOutcome),
      ((runStream req mid o).countP SEvent.isEngineSignal = 1) ∧
      (∀ chunks, o = .completed chunks →
        (runStream req mid o).getLast?
          = some (SEvent.engineResult req.workflowId req.requestId
                    (resultContent chunks) req.agentName)) ∧
      (∀ st chunks, o = .cancelled st chunks →
        SEvent.wsError req.requestId "Stream cancelled" true ∈ runStream req mid o ∧
        (runStream req mid o).getLast?
          = some (SEvent.engineError req.workflowId req.requestId "Stream cancelled")) ∧
      (∀ st chunks m, o = .failed st chunks m →
        SEvent.wsError req.requestId m false ∈ runStream req mid o ∧
        (runStream req mid o).getLast?
          = some (SEvent.engineError req.workflowId req.requestId m)) := by
  intro req mid o
  refine ⟨?_, ?_, ?_, ?_⟩
  · cases o with
    | completed chunks =>
      simp [runStream, notifyCompleteEvents, List.countP_append, List.countP_cons,
        countP_engine_chunks, SEvent.isEngineSignal]
    | cancelled st chunks =>
      cases st <;>
        simp [runStream, notifyErrorEvents, List.countP_append, List.countP_cons,
          countP_engine_chunks, SEvent.isEngineSignal]
    | failed st chunks m =>
      cases st <;>
        simp [runStream, notifyErrorEvents, List.countP_append, List.countP_cons,
          countP_engine_chunks, SEvent.isEngineSignal]
  · rintro chunks rfl
    show ((_ ++ _) ++ [SEvent.wsEnd _ _ _, SEvent.engineResult _ _ _ _]).getLast? = _
    exact getLast_append_pair _ _ _
  · rintro st chunks rfl
    constructor
    · simp [runStream, notifyErrorEvents]
    · show ((_ ++ _) ++ [SEvent.wsError _ _ _, SEvent.engineError _ _ _]).getLast? = _
      exact getLast_append_pair _ _ _
  · rintro st chunks m rfl
    constructor
    · simp [runStream, notifyErrorEvents]
    · show ((_ ++ _) ++ [SEvent.wsError _ _ _, SEvent.engineError _ _ _]).getLast? = _
      exact getLast_append_pair _ _ _

/-- Witness for C4 on a concrete failed run: one engine signal, carrying the
error, terminates the trace. -/
theorem c4_stream_terminal_signal_exactly_once_witness :
    ((runStream
        { requestId := "r1", userId := "u1", conversationId := "c1",
          workflowId := "wf-r1", agentName := "greeter", userMessage := ['h'] }
        "m1" (.failed true [] "boom")).countP SEvent.isEngineSignal = 1) ∧
    (runStream
        { requestId := "r1", userId := "u1", conversationId := "c1",
          workflowId := "wf-r1", agentName := "greeter", userMessage := ['h'] }
        "m1" (.failed true [] "boom")).getLast?
      = some (SEvent.engineError "wf-r1" "r1" "boom") :=
  ⟨(c4_stream_terminal_signal_exactly_once
      { requestId := "r1", userId := "u1", conversationId := "c1",
        workflowId := "wf-r1", agentName := "greeter", userMessage := ['h'] }
      "m1" (.failed true [] "boom")).1,
   ((c4_stream_terminal_signal_exactly_once
      { requestId := "r1", userId := "u1", conversationId := "c1",
        workflowId := "wf-r1", agentName := "greeter", userMessage := ['h'] }
      "m1" (.failed true [] "boom")).2.2.2 true [] "boom" rfl).2⟩

/-- Helper: if the left part of an append holds no `p`-elements and the
right part no `q`-elements, any `q`-element's index is below any
`p`-element's index. -/
lemma index_lt_of_split {α : Type} (P Q : List α) (p q : α → Bool)
    (hP : ∀ e ∈ P, p e = false) (hQ : ∀ e ∈ Q, q e = false)
    {i j : Nat} {x y : α}
    (hx : (P ++ Q)[i]? = some x) (hpx : p x = true)
    (hy : (P ++ Q)[j]? = some y) (hqy : q y = true) :
    j < i := by
  have hi : P.length ≤ i := by
    by_contra hlt
    push_neg at hlt
    rw [List.getElem?_append, if_pos hlt] at hx
    have := hP x (List.getElem?_mem hx)
    rw [this] at hpx
    exact absurd hpx (by decide)
  have hj : j < P.length := by
    by_contra hge
    push_neg at hge
    rw [List.getElem?_append, if_neg (Nat.not_lt.2 hge)] at hy
    have := hQ y (List.getElem?_mem hy)
    rw [this] at hqy
    exact absurd hqy (by decide)
  omega

/-- Helper: the events of a step transition are only the step-update write
and notifications — no memory-add and no `workflow.completed` notify. -/
lemma transitionStep_events (s : WorkflowState) (cfg : StepConfig) :
    ∀ e ∈ (transitionStep s cfg).2,
      e.isAddMem = false ∧ isCompletedNotify e = false := by
  intro e he
  simp only [transitionStep] at he
  rcases hn : cfg.next with _ | nxt <;> simp only [hn] at he
  · simp at he
  · simp only [List.mem_append, List.mem_cons, List.not_mem_nil, or_false] at he
    rcases he with (rfl | rfl) | he
    · exact ⟨rfl, rfl⟩
    · exact ⟨rfl, rfl⟩
    · rcases hl : lookupA ONBOARDING_STEPS nxt with _ | c <;> simp only [hl] at he
      · simp at he
      · by_cases hag : c.agent ≠ "" <;> simp [hag] at he
        subst he
        exact ⟨rfl, rfl⟩

/-- Helper: signal processing emits only transition events. -/
lemma processSignal_events (s : WorkflowState) (sig : SignalDict) (cfg : StepConfig) :
    ∀ e ∈ (processSignal s sig cfg).2,
      e.isAddMem = false ∧ isCompletedNotify e = false := by
  intro e he
  simp only [processSignal] at he
  by_cases hact : sig.action.getD "stay" = "complete_step"
  · rw [if_pos hact] at he
    exact transitionStep_events _ cfg e he
  · rw [if_neg hact] at he
    simp at he

/-- Helper: the agent-dispatch branch emits neither a step-update write,
nor a memory-add, nor a `workflow.completed` notification. -/
lemma branchOf_events (env : TEnv) (m : UserMessage) (cfg : StepConfig) :
    ∀ e ∈ (branchOf env m cfg).2,
      e.isUpdateStep = false ∧ e.isAddMem = false ∧ isCompletedNotify e = false := by
  intro e he
  unfold branchOf at he
  rcases hr : m.requestId with _ | rid <;> rw [hr] at he <;>
    simp [processWithStreaming, processWithoutStreaming] at he
  · rcases he with rfl | rfl | rfl <;> exact ⟨rfl, rfl, rfl⟩
  · subst he; exact ⟨rfl, rfl, rfl⟩

/-- Helper: the part of the `_process_message` trace before signal
processing contains no step-update write; the signal-processing suffix
contains no memory-add; and the whole trace never notifies
`workflow.completed`. -/
lemma processMessage_trace (env : TEnv) (s : WorkflowState) (m : UserMessage)
    (cfg : StepConfig) (hlook : lookupA ONBOARDING_STEPS s.currentStep = some cfg) :
    (processMessage env s m).2
      = ([Act.saveMessage "user" m.content, Act.searchMemories m.content 5,
          Act.getUserCollections]
          ++ (branchOf env m cfg).2
          ++ [Act.saveMessage "assistant" (branchOf env m cfg).1.content,
              Act.addMemory m.content (branchOf env m cfg).1.content])
        ++ (processSignal s (branchOf env m cfg).1.workflowSignal cfg).2 := by
  unfold processMessage
  rw [hlook]

/-- Helper: `_process_message` never emits a `workflow.completed`
notification. -/
lemma processMessage_no_completed (env : TEnv) (s : WorkflowState)
    (m : UserMessage) :
    ∀ e ∈ (processMessage env s m).2, isCompletedNotify e = false := by
  intro e he
  rcases hlook : lookupA ONBOARDING_STEPS s.currentStep with _ | cfg
  · rw [show (processMessage env s m).2 = [] from by unfold processMessage; rw [hlook]] at he
    simp at he
  · rw [processMessage_trace env s m cfg hlook] at he
    simp only [List.append_assoc, List.mem_append, List.mem_cons,
      List.not_mem_nil, or_false] at he
    rcases he with (rfl | rfl | rfl) | he | (rfl | rfl) | he
    · rfl
    · rfl
    · rfl
    · exact (branchOf_events env m cfg e he).2.2
    · rfl
    · rfl
    · exact (processSignal_events s _ cfg e he).2

/-- Helper: the main loop never emits a `workflow.completed`
notification. -/
lemma runLoop_no_completed (env : TEnv) (msgs : List UserMessage) :
    ∀ (s : WorkflowState), ∀ e ∈ (runLoop env s msgs).2, isCompletedNotify e = false := by
  induction msgs with
  | nil => intro s e he; simp [runLoop] at he
  | cons m rest ih =>
    intro s e he
    simp only [runLoop] at he
    split at he
    · split at he
      · exact processMessage_no_completed env s m e he
      · rcases List.mem_append.1 he with h | h
        · exact processMessage_no_completed env s m e h
        · exact ih _ e h
    · simp at he

/-- Claim C3 — counterexample: on a concrete non-streaming message whose
agent signals `complete_step`, the trace of `_process_message` contains its
unique memory-add event at index 7 and its unique step-transition write at
index 8: the memory-add activity is awaited strictly before the transition,
so the transition can never complete before the memory-add does. -/
theorem c3_counterexample :
    (processMessage demoEnv demoState demoMsg).2[7]?
        = some (Act.addMemory ['g', 'o'] ['o', 'k']) ∧
    (processMessage demoEnv demoState demoMsg).2[8]?
        = some (Act.updateWorkflowStep "discovery") ∧
    (processMessage demoEnv demoState demoMsg).2.countP Act.isAddMem = 1 ∧
    (processMessage demoEnv demoState demoMsg).2.countP Act.isUpdateStep = 1 :=
  ⟨rfl, rfl, rfl, rfl⟩

/-- Claim C3 — amended: the memory-add activity is awaited inside
`_process_message` before the signal is applied, so every step-transition
write in the trace occurs strictly after the memory-add event; the
transition outcome, however, does not depend on the memory-add's returned
value (the workflow discards it). -/
theorem c3_memory_add_before_transition :
    (∀ (env : TEnv) (s : WorkflowState) (m : UserMessage) (i j : Nat) (x y : Act),
       (processMessage env s m).2[i]? = some x → x.isUpdateStep = true →
       (processMessage env s m).2[j]? = some y → y.isAddMem = true →
       j < i) ∧
    (∀ (env : TEnv) (r : List (List (String × J))) (s : WorkflowState)
       (m : UserMessage),
       processMessage { env with addMemoryResult := r } s m
         = processMessage env s m) := by
  constructor
  · intro env s m i j x y hx hpx hy hqy
    rcases hlook : lookupA ONBOARDING_STEPS s.currentStep with _ | cfg
    · rw [show (processMessage env s m).2 = [] from by unfold processMessage; rw [hlook]] at hx
      simp at hx
    · rw [processMessage_trace env s m cfg hlook] at hx hy
      refine index_lt_of_split _ _ Act.isUpdateStep Act.isAddMem ?_ ?_ hx hpx hy hqy
      · intro e he
        simp only [List.mem_append, List.mem_cons, List.not_mem_nil, or_false] at he
        rcases he with ((rfl | rfl | rfl) | he) | (rfl | rfl)
        · rfl
        · rfl
        · rfl
        · exact (branchOf_events env m cfg e he).1
        · rfl
        · rfl
      · intro e he
        exact (processSignal_events s _ cfg e he).1
  · intro env r s m
    rfl

/-- Witness for the amended C3 at a concrete trace: the memory-add at index
7 precedes the transition write at index 8. -/
theorem c3_memory_add_before_transition_witness : 7 < 8 :=
  c3_memory_add_before_transition.1 demoEnv demoState demoMsg 8 7
    (Act.updateWorkflowStep "discovery") (Act.addMemory ['g', 'o'] ['o', 'k'])
    rfl rfl rfl rfl

/-- Claim C5 — part (a): resolving `complete_step` at a terminal step
(`next = null`) appends the terminal step to the completed list, sets the
status to completed, leaves the current step unchanged, and performs no
further activities; part (b): every completed run of the workflow emits the
`workflow.completed` notification exactly once. -/
theorem c5_terminal_step_completion :
    (∀ (s : WorkflowState) (sig : SignalDict) (cfg : StepConfig),
       cfg.next = none → sig.action.getD "stay" = "complete_step" →
       (processSignal s sig cfg).1.stepsCompleted
           = s.stepsCompleted ++ [s.currentStep] ∧
       (processSignal s sig cfg).1.status = "completed" ∧
       (processSignal s sig cfg).1.currentStep = s.currentStep ∧
       (processSignal s sig cfg).2 = []) ∧
    (∀ (env : TEnv) (userId : String) (msgs : List UserMessage),
       (runWorkflow env userId msgs).1.status = "completed" →
       (runWorkflow env userId msgs).2.countP isCompletedNotify = 1) := by
  constructor
  · intro s sig cfg hnext hact
    refine ⟨?_, ?_, ?_, ?_⟩ <;>
      · rcases hd : sig.data with _ | ⟨p, rest⟩ <;>
          simp [processSignal, transitionStep, hact, hnext, hd]
  · intro env userId msgs h
    have h' : (runLoop env (initState env userId) msgs).1.status = "completed" := h
    have h2 : (runWorkflow env userId msgs).2
        = [Act.createWorkflowInstance, Act.getOrCreateConversation,
           Act.notifyUser "workflow.started"]
          ++ (runLoop env (initState env userId) msgs).2
          ++ [Act.completeWorkflowDB, Act.notifyUser "workflow.completed"] := by
      have hsplit : (runWorkflow env userId msgs).2
          = if (runLoop env (initState env userId) msgs).1.status = "completed"
            then [Act.createWorkflowInstance, Act.getOrCreateConversation,
                  Act.notifyUser "workflow.started"]
                 ++ (runLoop env (initState env userId) msgs).2
                 ++ [Act.completeWorkflowDB, Act.notifyUser "workflow.completed"]
            else [Act.createWorkflowInstance, Act.getOrCreateConversation,
                  Act.notifyUser "workflow.started"]
                 ++ (runLoop env (initState env userId) msgs).2 := rfl
      rw [hsplit, if_pos h']
    rw [h2]
    have h0 : (runLoop env (initState env userId) msgs).2.countP isCompletedNotify = 0 :=
      List.countP_eq_zero.2 (by
        intro e he
        rw [runLoop_no_completed env msgs (initState env userId) e he]
        decide)
    simp [List.countP_append, List.countP_cons, h0, isCompletedNotify]

/-- Witness for C5: a run driven to completion by four `complete_step`
messages emits `workflow.completed` exactly once, and the terminal signal
application at `setup_complete` completes without events. -/
theorem c5_terminal_step_completion_witness :
    ((processSignal { demoState with currentStep := "setup_complete" }
        { action := some "complete_step" }
        { agent := "coordinator", next := none, isRequired := false }).1.status
      = "completed") ∧
    (runWorkflow demoEnv "u1" [demoMsg, demoMsg, demoMsg, demoMsg]).2.countP
        isCompletedNotify = 1 :=
  ⟨(c5_terminal_step_completion.1 { demoState with currentStep := "setup_complete" }
      { action := some "complete_step" }
      { agent := "coordinator", next := none, isRequired := false } rfl rfl).2.1,
   c5_terminal_step_completion.2 demoEnv "u1" [demoMsg, demoMsg, demoMsg, demoMsg] rfl⟩

/-- Helper: in the onboarding step map, every configured `next` pointer
names a configured step. -/
lemma onboarding_next_defined :
    ∀ (n : String) (cfg : StepConfig) (nxt : String),
      lookupA ONBOARDING_STEPS n = some cfg → cfg.next = some nxt →
      (lookupA ONBOARDING_STEPS nxt).isSome = true := by
  intro n cfg nxt h1 h2
  simp only [ONBOARDING_STEPS, lookupA] at h1
  split_ifs at h1 <;>
    first
      | (injection h1 with h1; subst h1; injection h2 with h2; subst h2; decide)
      | (injection h1 with h1; subst h1; simp at h2)

/-- Helper: signal processing keeps the current step inside the step map. -/
lemma processSignal_preserves_step (s : WorkflowState) (sig : SignalDict)
    (cfg : StepConfig)
    (hlook : lookupA ONBOARDING_STEPS s.currentStep = some cfg) :
    (lookupA ONBOARDING_STEPS (processSignal s sig cfg).1.currentStep).isSome
      = true := by
  rcases hd : sig.data with _ | ⟨p, rest⟩ <;>
    rcases hn : cfg.next with _ | nxt <;>
      by_cases hact : sig.action.getD "stay" = "complete_step" <;>
        simp only [processSignal, transitionStep, hd, hn, hact, if_true, if_false,
          reduceIte, hlook, Option.isSome_some]
  all_goals
    first
      | rw [hlook]
      | exact onboarding_next_defined s.currentStep cfg nxt hlook hn

/-- Helper: `_process_message` keeps the current step inside the step map. -/
lemma processMessage_preserves_step (env : TEnv) (s : WorkflowState)
    (m : UserMessage)
    (hs : (lookupA ONBOARDING_STEPS s.currentStep).isSome = true) :
    (lookupA ONBOARDING_STEPS (processMessage env s m).1.currentStep).isSome
      = true := by
  rcases hlook : lookupA ONBOARDING_STEPS s.currentStep with _ | cfg
  · rw [hlook] at hs; simp at hs
  · have : (processMessage env s m).1
        = (processSignal s (branchOf env m cfg).1.workflowSignal cfg).1 := by
      unfold processMessage
      rw [hlook]
    rw [this]
    exact processSignal_preserves_step s _ cfg hlook

/-- Claim C10: the durable workflow initializes `currentStep` to
`"greeting"`, and in every reachable state `currentStep` names a step
defined in the onboarding step map. -/
theorem c10_current_step_invariant :
    (∀ (env : TEnv) (userId : String), (initState env userId).currentStep = "greeting") ∧
    (∀ s, Reachable s → (lookupA ONBOARDING_STEPS s.currentStep).isSome = true) := by
  refine ⟨fun env userId => rfl, ?_⟩
  intro s h
  induction h with
  | init env userId => rfl
  | step env s m hs ih => exact processMessage_preserves_step env s m ih

/-- Witness for C10 at the initial state and after one processed message. -/
theorem c10_current_step_invariant_witness :
    (lookupA ONBOARDING_STEPS (initState demoEnv "u1").currentStep).isSome = true ∧
    (lookupA ONBOARDING_STEPS
        (processMessage demoEnv (initState demoEnv "u1") demoMsg).1.currentStep).isSome
      = true :=
  ⟨c10_current_step_invariant.2 (initState demoEnv "u1") (Reachable.init demoEnv "u1"),
   c10_current_step_invariant.2 (processMessage demoEnv (initState demoEnv "u1") demoMsg).1
     (Reachable.step demoEnv (initState demoEnv "u1") demoMsg (Reachable.init demoEnv "u1"))⟩

end AiLife
